import Mathlib

/-!
Shallow embedding of the rent-bot lead-conversation state machine
(`app/services/lead_service_simple.py`, `app/services/database_service.py`,
`app/services/calendly_service.py`, `app/services/messaging_service.py`)
and proofs about its behaviour.

Python strings are modelled as Lean `String`; Python's `str.lower` is
modelled for the ASCII range (the repository's data is ASCII and Hebrew, and
Hebrew has no letter case); Python's substring operator `in` is modelled by
contiguous-sublist containment on the character lists.  External
collaborators (the Gemini text generator, the Supabase store, the WhatsApp
gateway) are modelled as oracles and flags in an `Env` record; the store's
per-lead conversation log is modelled as a chronologically ordered list,
so "order by timestamp ascending, limit n" is `List.take n`.
-/

namespace RentBot

/-- Python `str.lower` restricted to the ASCII letters, the only cased
characters occurring in this repository's data. -/
def asciiLower (c : Char) : Char :=
  if 'A' ≤ c ∧ c ≤ 'Z' then Char.ofNat (c.toNat + 32) else c

/-- Python `str.upper` restricted to the ASCII letters. -/
def asciiUpper (c : Char) : Char :=
  if 'a' ≤ c ∧ c ≤ 'z' then Char.ofNat (c.toNat - 32) else c

/-- `message.lower()` as used throughout `lead_service_simple.py`. -/
def pyLower (s : String) : String := ⟨s.data.map asciiLower⟩

/-- `message.upper()` as used in `_match_property_with_ai`. -/
def pyUpper (s : String) : String := ⟨s.data.map asciiUpper⟩

/-- The whitespace characters stripped by Python's `str.strip()` that can
occur in this repository's data. -/
def isPySpace (c : Char) : Bool :=
  c = ' ' || c = '\t' || c = '\n' || c = '\r'

/-- Python `str.strip()`: drop leading and trailing whitespace. -/
def pyStrip (s : String) : String :=
  ⟨((s.data.dropWhile isPySpace).reverse.dropWhile isPySpace).reverse⟩

/-- Python `str.strip(ch)`: drop leading and trailing copies of one
character, as in `response.strip('"').strip("'")`. -/
def pyStripChar (ch : Char) (s : String) : String :=
  ⟨((s.data.dropWhile (· = ch)).reverse.dropWhile (· = ch)).reverse⟩

/-- Python's substring test `needle in hay` on strings: `needle`'s
characters occur contiguously inside `hay`'s. -/
def pyIn (needle hay : String) : Bool := decide (needle.data <:+: hay.data)

/-- Python `str.split()` (no argument): maximal runs of non-whitespace. -/
def pySplitAux : List Char → List Char → List String
  | [], acc => if acc.isEmpty then [] else [⟨acc.reverse⟩]
  | c :: rest, acc =>
    if isPySpace c then
      if acc.isEmpty then pySplitAux rest []
      else ⟨acc.reverse⟩ :: pySplitAux rest []
    else pySplitAux rest (c :: acc)

/-- `message.split()` from the name-extraction heuristic. -/
def pyWords (s : String) : List String := pySplitAux s.data []

/-- Parse a run of decimal digit characters, as Python `int` does. -/
def digitsToNat (cs : List Char) : Nat :=
  cs.foldl (fun acc c => acc * 10 + (c.toNat - 48)) 0

/-- `re.findall(r"\d+", message)` followed by `int(numbers[0])`: the first
maximal run of digits in the message, if any. -/
def firstDigitRun (s : String) : Option Nat :=
  let rest := s.data.dropWhile (fun c => !c.isDigit)
  let run := rest.takeWhile Char.isDigit
  if run.isEmpty then none else some (digitsToNat run)

/-- The `hebrew_numbers` lookup table of `_extract_number`, in the source's
insertion order (Python dicts iterate in insertion order). -/
def hebrewNumbers : List (String × Nat) :=
  [("אחד", 1), ("אחת", 1), ("שני", 2), ("שתיים", 2), ("שניים", 2),
   ("שלוש", 3), ("שלושה", 3), ("ארבע", 4), ("ארבעה", 4),
   ("חמש", 5), ("חמישה", 5), ("שש", 6), ("שישה", 6),
   ("שבע", 7), ("שבעה", 7), ("שמונה", 8), ("תשע", 9), ("עשר", 10)]

/-- `LeadServiceSimple._extract_number`: first spelled-out number word found
in the lowercased message, otherwise the first run of digits. -/
def extractNumber (message : String) : Option Nat :=
  let ml := pyLower message
  match hebrewNumbers.find? (fun p => pyIn p.1 ml) with
  | some p => some p.2
  | none => firstDigitRun message

/-- The rooms part of `_extract_profile_info`: an extracted number is kept
only when `1 <= rooms <= 10` (and Python's `if rooms` also rejects `0`,
which the range check subsumes). -/
def extractRooms (message : String) : Option Nat :=
  match extractNumber message with
  | some r => if r ≠ 0 ∧ 1 ≤ r ∧ r ≤ 10 then some r else none
  | none => none

/-! ## Data model (the `leads`, `conversation_log`, `properties`, `units`
tables, as read and written by `lead_service_simple.py`) -/

/-- A row of the `leads` table, with the fields the simple lead service
reads or writes.  Nullable columns are `Option`s; `last_interaction` is an
abstract timestamp (a `Nat`). -/
structure Lead where
  id : Nat
  phone_number : String
  name : Option String
  stage : String
  preferred_area : Option String
  rooms : Option Nat
  last_interaction : Nat
deriving Repr, DecidableEq

/-- A row of the `conversation_log` table for one lead.  The log list is
kept in chronological (insertion) order, which is also timestamp order
since `log_conversation` stamps each row with the current time. -/
structure ConvMsg where
  message_type : String
  content : String
deriving Repr, DecidableEq

/-- A row of the `properties` table (the fields used by matching). -/
structure Property where
  name : String
  address : String
deriving Repr, DecidableEq

/-- A row of the `units` table joined with its property
(`select('*, properties(*)')`); `props` is `none` when the join is null. -/
structure RUnit where
  id : Nat
  rooms : Nat
  status : String
  props : Option Property
deriving Repr, DecidableEq

/-- Python truthiness of a nullable string field (`not lead.get(...)`):
missing (`None`) or empty. -/
def optStrFalsy : Option String → Bool
  | none => true
  | some s => s = ""

/-- Python truthiness of a nullable integer field: missing or zero. -/
def optNatFalsy : Option Nat → Bool
  | none => true
  | some n => n = 0

/-- The `updates` dict passed to `DatabaseService.update_lead`: a partial
record of lead fields.  `none` means the key is absent from the dict. -/
structure LeadUpdates where
  name : Option String := none
  stage : Option String := none
  preferred_area : Option String := none
  rooms : Option Nat := none
deriving Repr, DecidableEq

/-- Python `if extracted:` — dict truthiness (empty dict is falsy). -/
def updatesEmpty (u : LeadUpdates) : Bool :=
  u.name = none && u.stage = none && u.preferred_area = none && u.rooms = none

/-- `DatabaseService.update_lead`: apply the partial update and always
refresh `last_interaction` to the current time. -/
def updateLead (now : Nat) (l : Lead) (u : LeadUpdates) : Lead :=
  { id := l.id
    phone_number := l.phone_number
    name := match u.name with | some n => some n | none => l.name
    stage := match u.stage with | some s => s | none => l.stage
    preferred_area :=
      match u.preferred_area with | some a => some a | none => l.preferred_area
    rooms := match u.rooms with | some r => some r | none => l.rooms
    last_interaction := now }

/-- `DatabaseService.get_conversation_history`: the source orders the
lead's rows by `timestamp` ASCENDING (`desc=False`) and then applies
`limit`, so it returns the OLDEST `limit` messages of the log. -/
def getConversationHistory (log : List ConvMsg) (limit : Nat) : List ConvMsg :=
  log.take limit

/-! ## External collaborators -/

/-- One invocation of `GeminiServiceSimple.generate_response`: the
stage-specific instruction, the lead snapshot passed (`none` models the
empty dict `{}` used by the property matcher), the conversation history
and the current user message. -/
structure GenCall where
  stage : String
  lead : Option Lead
  history : List ConvMsg
  userMessage : String

/-- The environment of external collaborators: the raw text-generator
calls as oracles that may fail (`Except Unit` models a raised exception),
the store's `properties` and `units` tables, the `CALENDLY_LINK`
environment variable, the current time, a flag making every store call
raise, and a flag making the property-media send fail. -/
structure Env where
  generate : GenCall → Except Unit String
  generateProperty : Lead → List RUnit → Except Unit String
  generateNoProps : Lead → Except Unit String
  properties : List Property
  units : List RUnit
  calendlyLink : String
  now : Nat
  dbFail : Bool
  mediaOk : Bool

/-- Fallback returned by `GeminiServiceSimple.generate_response` when the
generation call raises. -/
def geminiFallback : String := "מצטער, יש לי בעיה טכנית. נסה שוב."

/-- `GeminiServiceSimple.generate_response`: delegate to the oracle and
replace any failure with the fixed fallback text (the source's outer
`except` block).  Prompt construction and response cleaning are folded
into the oracle. -/
def generateResponse (env : Env) (c : GenCall) : String :=
  match env.generate c with
  | .ok s => s
  | .error _ => geminiFallback

/-- `GeminiServiceSimple.generate_property_message` with its fixed
fallback on failure. -/
def generatePropertyMessage (env : Env) (lead : Lead) (units : List RUnit) :
    String :=
  match env.generateProperty lead units with
  | .ok s => s
  | .error _ =>
    "מצאתי " ++ toString units.length ++ " דירות מתאימות. שולח תמונות..."

/-- `GeminiServiceSimple.generate_no_properties_message` with the fixed
fallback of its outer `except` block. -/
def generateNoPropertiesMessage (env : Env) (lead : Lead) : String :=
  match env.generateNoProps lead with
  | .ok s => s
  | .error _ => "לא מצאתי בדיוק מה שחיפשת. גמיש בפרויקט או במספר חדרים?"

/-- Modelled from the spec: `DatabaseService.get_all_properties` is called
by `_get_available_properties` but its definition is not among the given
sources; the spec describes it as fetching "the live list of distinct
property names ... from the Store", so it is modelled as returning the
store's `properties` table.  (The 5-minute in-memory cache of
`_get_available_properties` is best-effort and invisible here.) -/
def getAvailableProperties (env : Env) : List Property := env.properties

/-! ## Field extraction and property matching -/

/-- The missing-name test used by `_extract_profile_info` and
`_get_missing_profile_fields`:
`not lead.get('name') or lead.get('name') in ['Unknown', '...', None, '']`. -/
def nameMissing (l : Lead) : Bool :=
  match l.name with
  | none => true
  | some n => n = "" || n = "Unknown" || n = "..."

/-- The name heuristic of `_extract_profile_info`: 1–3 whitespace-separated
words, no digit, no question mark, no known yes/no token, and more than one
character after trimming. -/
def nameHeuristic (message : String) : Bool :=
  let words := pyWords message
  1 ≤ words.length && words.length ≤ 3 &&
    !message.data.any Char.isDigit &&
    !message.data.contains '?' &&
    !words.any (fun w =>
      ["yes", "no", "כן", "לא", "ok", "okay"].contains (pyLower w)) &&
    (pyStrip message).data.length > 1

/-- `property_names = [p.get('name', '') for p in properties if p.get('name')]`. -/
def propertyNames (properties : List Property) : List String :=
  (properties.map Property.name).filter (· ≠ "")

/-- The direct-match phase of `_match_property_with_ai`: the first known
name that case-insensitively contains, or is contained in, the stripped
lowercased message. -/
def directPropertyMatch (userMessage : String) (names : List String) :
    Option String :=
  let userLower := pyStrip (pyLower userMessage)
  names.find? (fun n => pyIn (pyLower n) userLower || pyIn userLower (pyLower n))

/-- Result of `_match_property_with_ai` together with whether the Text
Generator was invoked. -/
structure MatchOut where
  result : Option String
  aiInvoked : Bool
deriving Repr, DecidableEq

/-- `matched_property = response.strip().strip('"').strip("'")`. -/
def stripQuotes (s : String) : String :=
  pyStripChar '\'' (pyStripChar '"' (pyStrip s))

/-- The generator call issued by `_match_property_with_ai` when no direct
match exists: stage `'collecting_profile'`, empty lead dict, empty history,
and a prompt built from the message and the candidate names (folded into
the oracle via the call descriptor). -/
def aiMatchCall (userMessage : String) (names : List String) : GenCall :=
  { stage := "collecting_profile", lead := none, history := [],
    userMessage := userMessage ++ String.intercalate "\n" names }

/-- `LeadServiceSimple._match_property_with_ai`: try the direct
substring match first; only if it fails, consult the Text Generator,
validate its answer against the known list, and fall back to a fuzzy
containment check; any raised error yields no match. -/
def matchPropertyWithAi (env : Env) (userMessage : String)
    (properties : List Property) : MatchOut :=
  if properties.isEmpty then ⟨none, false⟩
  else
    let names := propertyNames properties
    if names.isEmpty then ⟨none, false⟩
    else
      match directPropertyMatch userMessage names with
      | some n => ⟨some n, false⟩
      | none =>
        match env.generate (aiMatchCall userMessage names) with
        | .error _ => ⟨none, true⟩
        | .ok resp =>
          let matched := stripQuotes resp
          if names.contains matched then ⟨some matched, true⟩
          else if pyUpper matched ≠ "NONE" then
            ⟨names.find? (fun n =>
              pyIn (pyLower matched) (pyLower n) ||
                pyIn (pyLower n) (pyLower matched)), true⟩
          else ⟨none, true⟩

/-- `LeadServiceSimple._extract_profile_info`, returning the partial update
dict together with the number of Text-Generator invocations it caused. -/
def extractProfileInfo (env : Env) (message : String) (lead : Lead) :
    LeadUpdates × Nat :=
  let nameU : Option String :=
    if nameMissing lead && nameHeuristic message then some (pyStrip message)
    else none
  let properties := getAvailableProperties env
  let names := propertyNames properties
  let areaAi : Option String × Nat :=
    if names.length = 1 &&
        ["yes", "כן", "ok", "okay", "yeah"].contains (pyStrip (pyLower message))
    then (names.head?, 0)
    else
      let m := matchPropertyWithAi env message properties
      (m.result, if m.aiInvoked then 1 else 0)
  let roomsU := extractRooms message
  ({ name := nameU, stage := none, preferred_area := areaAi.1, rooms := roomsU },
    areaAi.2)

/-- `LeadServiceSimple._get_missing_profile_fields`: the missing required
fields, always listed in the fixed order name, project, rooms. -/
def getMissingProfileFields (l : Lead) : List String :=
  (if nameMissing l then ["name"] else []) ++
    (if optStrFalsy l.preferred_area then ["project"] else []) ++
      (if optNatFalsy l.rooms then ["rooms"] else [])

/-- `LeadServiceSimple._normalize_text`: lowercase and strip spaces,
hyphens and underscores. -/
def normalizeText (s : String) : String :=
  ⟨(pyLower s).data.filter (fun c => c ≠ ' ' && c ≠ '-' && c ≠ '_')⟩

/-- `LeadServiceSimple._matches_project`: a unit matches when the
normalized preferred area is a substring of its property's normalized name
or address; units whose property join is null match vacuously. -/
def matchesProject (u : RUnit) (preferredArea : String) : Bool :=
  if preferredArea = "" then true
  else
    match u.props with
    | some p =>
      pyIn (normalizeText preferredArea) (normalizeText p.name) ||
        pyIn (normalizeText preferredArea) (normalizeText p.address)
    | none => true

/-- `DatabaseService.get_available_units`: units with status `'available'`
filtered by the optional `min_rooms`/`max_rooms` criteria. -/
def getAvailableUnits (units : List RUnit) (minRooms maxRooms : Option Nat) :
    List RUnit :=
  units.filter (fun u =>
    u.status = "available" &&
      (match minRooms with | some m => decide (m ≤ u.rooms) | none => true) &&
        (match maxRooms with | some m => decide (u.rooms ≤ m) | none => true))

/-- The unit list computed by `_search_and_show_properties`: exact room
count when the lead's `rooms` is set, then (when a preferred area is set)
the `_matches_project` filter. -/
def searchUnits (env : Env) (lead : Lead) : List RUnit :=
  let pair : Option Nat × Option Nat :=
    if optNatFalsy lead.rooms then (none, none) else (lead.rooms, lead.rooms)
  let units0 := getAvailableUnits env.units pair.1 pair.2
  if optStrFalsy lead.preferred_area then units0
  else units0.filter (fun u => matchesProject u (lead.preferred_area.getD ""))

/-! ## Stage handlers -/

/-- Result of a stage handler: the reply text, the lead record after all
`update_lead` calls, the number of Text-Generator invocations, the number
of `update_lead` calls, and the units for which property media was
attempted. -/
structure HOut where
  reply : String
  lead : Lead
  gcalls : Nat
  writes : Nat
  media : List RUnit
deriving Repr

/-- `LeadServiceSimple._is_scheduling_request`: the fixed keyword set,
checked as an exact match of the stripped lowercased message or as a
substring. -/
def schedulingWords : List String :=
  ["yes", "כן", "רוצה", "want", "schedule", "visit", "tour",
   "ביקור", "סיור", "לתאם", "לקבוע"]

/-- `LeadServiceSimple._is_scheduling_request`. -/
def isSchedulingRequest (message : String) : Bool :=
  let ml := pyStrip (pyLower message)
  schedulingWords.contains ml || schedulingWords.any (fun w => pyIn w ml)

/-- The guarantee/payslip keyword test inline in `_handle_qualified`. -/
def guaranteeHit (message : String) : Bool :=
  ["ערבות", "guarantee", "דרישות", "תלוש", "payslip"].any
    (fun w => pyIn w (pyLower message))

/-- `LeadServiceSimple._is_booking_confirmation`. -/
def isBookingConfirmation (message : String) : Bool :=
  ["קבעתי", "הזמנתי", "תיאמתי", "booked", "scheduled",
   "confirmed", "done", "קיבלתי אישור", "סידרתי"].any
    (fun w => pyIn w (pyLower message))

/-- `LeadServiceSimple._start_scheduling`: generate the guarantee
explanation, and when `CALENDLY_LINK` is set (non-empty) move the lead to
`scheduling_in_progress` and append the link; otherwise fall back to the
manual-scheduling reply with no stage change. -/
def startScheduling (env : Env) (lead : Lead) (hist : List ConvMsg) : HOut :=
  let gm := generateResponse env ⟨"asking_guarantees", some lead, hist, ""⟩
  if env.calendlyLink ≠ "" then
    { reply := gm ++ "\n\n📅 קישור לתיאום:\n" ++ env.calendlyLink ++
        "\n\nאחרי שתקבע, תאשר לי כאן."
      lead := updateLead env.now lead { stage := some "scheduling_in_progress" }
      gcalls := 1, writes := 1, media := [] }
  else
    { reply := "אתאם איתך ידנית. איזה יום ושעה נוחים לך?"
      lead := lead, gcalls := 1, writes := 0, media := [] }

/-- `LeadServiceSimple._explain_guarantees_and_schedule`: generate the
guarantee explanation with stage `'asking_guarantees'`; when
`CALENDLY_LINK` is set, append the booking link and move the lead to
`scheduling_in_progress`. -/
def explainGuaranteesAndSchedule (env : Env) (lead : Lead)
    (hist : List ConvMsg) : HOut :=
  let resp := generateResponse env ⟨"asking_guarantees", some lead, hist, ""⟩
  if env.calendlyLink ≠ "" then
    { reply := resp ++ "\n\n📅 קישור לתיאום ביקור:\n" ++ env.calendlyLink
      lead := updateLead env.now lead { stage := some "scheduling_in_progress" }
      gcalls := 1, writes := 1, media := [] }
  else
    { reply := resp, lead := lead, gcalls := 1, writes := 0, media := [] }

/-- `LeadServiceSimple._search_and_show_properties`: search, then either
advance to `qualified` with the generated property message and a
best-effort media send of at most 3 units (its failure is caught and does
not affect the reply), or regress to `collecting_profile` with the
no-properties message. -/
def searchAndShow (env : Env) (lead : Lead) : HOut :=
  let units := searchUnits env lead
  if units.isEmpty then
    { reply := generateNoPropertiesMessage env lead
      lead := updateLead env.now lead { stage := some "collecting_profile" }
      gcalls := 1, writes := 1, media := [] }
  else
    { reply := generatePropertyMessage env lead units
      lead := updateLead env.now lead { stage := some "qualified" }
      gcalls := 1, writes := 1
      media := if env.mediaOk then units.take 3 else [] }

/-- The lead record after `_handle_collecting_profile` has applied the
message's extracted fields (`update_lead` followed by the re-fetch). -/
def postExtractLead (env : Env) (message : String) (lead : Lead) : Lead :=
  let ex := (extractProfileInfo env message lead).1
  if updatesEmpty ex then lead else updateLead env.now lead ex

/-- The reply of `_handle_collecting_profile` when asking for one missing
field: the name question, the project question (whose form depends on the
known property names), or the rooms question. -/
def questionFor (env : Env) (field : String) : String :=
  if field = "name" then "מה השם שלך?"
  else if field = "project" then
    let names := propertyNames (getAvailableProperties env)
    if names.length = 1 then
      "האם אתה מתעניין בפרויקט " ++ names.headD "" ++ "?"
    else if !names.isEmpty then
      "באיזה פרויקט אתה מתעניין? " ++ String.intercalate ", " names
    else "באיזה פרויקט אתה מתעניין?"
  else "כמה חדרים אתה מחפש?"

/-- `LeadServiceSimple._handle_collecting_profile`: reject empty messages,
extract and persist profile fields, then either run the property search
(profile complete) or ask for the first missing field in the fixed order
name, project, rooms. -/
def handleCollectingProfile (env : Env) (lead : Lead) (hist : List ConvMsg)
    (message : String) : HOut :=
  if (pyStrip message).data.length < 1 then
    { reply := "אני לא הבנתי. תוכל לחזור על זה?"
      lead := lead, gcalls := 0, writes := 0, media := [] }
  else
    let exg := extractProfileInfo env message lead
    let lead' := postExtractLead env message lead
    let w1 : Nat := if updatesEmpty exg.1 then 0 else 1
    let missing := getMissingProfileFields lead'
    if missing.isEmpty then
      let h := searchAndShow env lead'
      { h with gcalls := exg.2 + h.gcalls, writes := w1 + h.writes }
    else if missing.contains "name" then
      { reply := questionFor env "name", lead := lead'
        gcalls := exg.2, writes := w1, media := [] }
    else if missing.contains "project" then
      { reply := questionFor env "project", lead := lead'
        gcalls := exg.2, writes := w1, media := [] }
    else if missing.contains "rooms" then
      { reply := questionFor env "rooms", lead := lead'
        gcalls := exg.2, writes := w1, media := [] }
    else
      { reply := generateResponse env ⟨"collecting_profile", some lead', hist, message⟩
        lead := lead', gcalls := exg.2 + 1, writes := w1, media := [] }

/-- `LeadServiceSimple._handle_new_lead`: move to `collecting_profile`,
re-fetch the lead, and ask for the name via the Text Generator. -/
def handleNewLead (env : Env) (lead : Lead) (hist : List ConvMsg)
    (message : String) : HOut :=
  let lead' := updateLead env.now lead { stage := some "collecting_profile" }
  { reply := generateResponse env ⟨"new", some lead', hist, message⟩
    lead := lead', gcalls := 1, writes := 1, media := [] }

/-- `LeadServiceSimple._handle_qualified`: scheduling intent starts
scheduling; otherwise guarantee keywords trigger the guarantee
explanation; otherwise a generic generated reply with no lead change. -/
def handleQualified (env : Env) (lead : Lead) (hist : List ConvMsg)
    (message : String) : HOut :=
  if isSchedulingRequest message then startScheduling env lead hist
  else if guaranteeHit message then explainGuaranteesAndSchedule env lead hist
  else
    { reply := generateResponse env ⟨"qualified", some lead, hist, message⟩
      lead := lead, gcalls := 1, writes := 0, media := [] }

/-- `LeadServiceSimple._handle_scheduling`: a booking confirmation moves
the lead to `tour_scheduled`; otherwise a generic scheduling reply. -/
def handleScheduling (env : Env) (lead : Lead) (hist : List ConvMsg)
    (message : String) : HOut :=
  if isBookingConfirmation message then
    let lead' := updateLead env.now lead { stage := some "tour_scheduled" }
    { reply := generateResponse env ⟨"tour_scheduled", some lead', hist, message⟩
      lead := lead', gcalls := 1, writes := 1, media := [] }
  else
    { reply := generateResponse env ⟨"scheduling_in_progress", some lead, hist, message⟩
      lead := lead, gcalls := 1, writes := 0, media := [] }

/-- `LeadServiceSimple._handle_tour_scheduled`: tour-support reply only. -/
def handleTourScheduled (env : Env) (lead : Lead) (hist : List ConvMsg)
    (message : String) : HOut :=
  { reply := generateResponse env ⟨"tour_scheduled", some lead, hist, message⟩
    lead := lead, gcalls := 1, writes := 0, media := [] }

/-- `LeadServiceSimple._process_by_stage`: route by the lead's stage
string; any stage other than the five handled ones falls through to the
collecting-profile handler. -/
def processByStage (env : Env) (lead : Lead) (hist : List ConvMsg)
    (message : String) : HOut :=
  if lead.stage = "new" then handleNewLead env lead hist message
  else if lead.stage = "collecting_profile" then
    handleCollectingProfile env lead hist message
  else if lead.stage = "qualified" then handleQualified env lead hist message
  else if lead.stage = "scheduling_in_progress" then
    handleScheduling env lead hist message
  else if lead.stage = "tour_scheduled" then
    handleTourScheduled env lead hist message
  else handleCollectingProfile env lead hist message

/-! ## The `process_lead_message` entry point -/

/-- Result of processing one inbound message: the reply, the lead record
after processing, the lead's conversation log after processing, and the
effect counters. -/
structure ProcOut where
  reply : String
  lead : Lead
  log : List ConvMsg
  gcalls : Nat
  writes : Nat
  media : List RUnit
deriving Repr

/-- The static acknowledgement returned when a duplicate is detected. -/
def staticAck : String := "קיבלתי את ההודעה."

/-- The fixed fallback reply of `process_lead_message`'s outer `except`. -/
def techFallback : String := "מצטער, יש בעיה טכנית. נסה שוב."

/-- The duplicate check of `process_lead_message` on the fetched window:
walk the window backwards to the most recent `'user'` row, and compare its
stripped content (when non-empty, per the truthiness guard) with the
stripped inbound message. -/
def duplicateHit (window : List ConvMsg) (message : String) : Bool :=
  match window.reverse.find? (fun m => m.message_type = "user") with
  | some m =>
    let lu := pyStrip m.content
    lu ≠ "" && lu = pyStrip message
  | none => false

/-- The duplicate trigger as the SPEC words it, for comparison: the
stripped inbound message is byte-identical to the most recent message of
direction `user` in the lead's whole stored history. -/
def specDuplicateTrigger (log : List ConvMsg) (message : String) : Bool :=
  match log.reverse.find? (fun m => m.message_type = "user") with
  | some m => pyStrip m.content = pyStrip message
  | none => false

/-- The body of `process_lead_message` for an existing lead (everything
inside the outer `try`): duplicate check against the
`get_conversation_history(lead, limit=3)` window, log the user message,
dispatch by stage on a `limit=10` history, log the bot reply. -/
def processPure (env : Env) (lead : Lead) (log : List ConvMsg)
    (message : String) : ProcOut :=
  if duplicateHit (getConversationHistory log 3) message then
    { reply := staticAck, lead := lead, log := log
      gcalls := 0, writes := 0, media := [] }
  else
    let log1 := log ++ [⟨"user", message⟩]
    let h := processByStage env lead (getConversationHistory log1 10) message
    { reply := h.reply, lead := h.lead, log := log1 ++ [⟨"bot", h.reply⟩]
      gcalls := h.gcalls, writes := h.writes, media := h.media }

/-- The fallible body: the store is modelled as failing atomically, so a
failing store raises at the first store call (the lead fetch), before any
mutation. -/
def processInner (env : Env) (lead : Lead) (log : List ConvMsg)
    (message : String) : Except Unit ProcOut :=
  if env.dbFail then .error () else .ok (processPure env lead log message)

/-- `LeadServiceSimple.process_lead_message` for an existing lead: the
body wrapped in the outer catch-all that degrades any failure to the fixed
fallback reply. -/
def processLeadMessage (env : Env) (lead : Lead) (log : List ConvMsg)
    (message : String) : ProcOut :=
  match processInner env lead log message with
  | .ok r => r
  | .error _ =>
    { reply := techFallback, lead := lead, log := log
      gcalls := 0, writes := 0, media := [] }

/-! ## Calendly cancellation (`calendly_service.py`) -/

/-- A row of the `appointments` table (the fields used by cancellation). -/
structure Appointment where
  id : Nat
  lead_id : Nat
  calendly_event_id : String
  status : String
deriving Repr, DecidableEq

/-- A row of the `followups` table (the fields used by cancellation). -/
structure Followup where
  id : Nat
  lead_id : Nat
  status : String
deriving Repr, DecidableEq

/-- The store tables touched by appointment cancellation. -/
structure DB where
  leads : List Lead
  appointments : List Appointment
  followups : List Followup
deriving Repr

/-- Python `s.split(ch)` for a one-character separator (keeps empty
segments, always returns at least one segment). -/
def splitCharAux (ch : Char) : List Char → List Char → List String
  | [], acc => [⟨acc.reverse⟩]
  | c :: rest, acc =>
    if c = ch then (⟨acc.reverse⟩ : String) :: splitCharAux ch rest []
    else splitCharAux ch rest (c :: acc)

/-- Python `uri.split('/')`. -/
def pySplitChar (ch : Char) (s : String) : List String :=
  splitCharAux ch s.data []

/-- `payload.get('event', {}).get('uri', '').split('/')[-1]`. -/
def lastUriSegment (uri : String) : String :=
  (pySplitChar '/' uri).getLastD ""

/-- `DatabaseService.get_appointment_by_calendly_id`: first row matching
the Calendly event id. -/
def getAppointmentByCalendlyId (db : DB) (eid : String) : Option Appointment :=
  db.appointments.find? (fun a => a.calendly_event_id = eid)

/-- `DatabaseService.update_appointment_status` (rows matching the id). -/
def updateAppointmentStatus (db : DB) (aid : Nat) (status : String) : DB :=
  { db with appointments := db.appointments.map (fun a =>
      if a.id = aid then { a with status := status } else a) }

/-- The `update_lead` call on the store (rows matching the lead id). -/
def dbUpdateLead (db : DB) (lid : Nat) (now : Nat) (u : LeadUpdates) : DB :=
  { db with leads := db.leads.map (fun l =>
      if l.id = lid then updateLead now l u else l) }

/-- `DatabaseService.cancel_pending_followups`: set every `'pending'`
followup of the lead to `'canceled'`. -/
def cancelPendingFollowups (db : DB) (lid : Nat) : DB :=
  { db with followups := db.followups.map (fun f =>
      if f.lead_id = lid && f.status = "pending" then
        { f with status := "canceled" }
      else f) }

/-- `CalendlyService._handle_appointment_canceled`: resolve the
appointment by the event uri's last segment, mark it canceled, regress the
lead to `qualified`, and cancel the lead's pending followups.  (The
WhatsApp cancellation notice touches no store table.)  Returns the webhook
acknowledgement string and the resulting store. -/
def handleAppointmentCanceled (db : DB) (now : Nat) (uri : String) :
    String × DB :=
  let eid := lastUriSegment uri
  if eid = "" then ("ERROR", db)
  else
    match getAppointmentByCalendlyId db eid with
    | none => ("OK", db)
    | some appt =>
      let db1 := updateAppointmentStatus db appt.id "canceled"
      let db2 := dbUpdateLead db1 appt.lead_id now { stage := some "qualified" }
      let db3 := cancelPendingFollowups db2 appt.lead_id
      ("OK", db3)

/-! ## Concrete fixtures used by the theorems below -/

/-- A generator oracle that always answers with a fixed text. -/
def oracleOkay : GenCall → Except Unit String := fun _ => .ok "RESP"

/-- Two properties as in the spec's worked example. -/
def propsT : List Property :=
  [⟨"Sderot Yerushalayim", "HaRav 1"⟩, ⟨"Neve Sharet", "Tel Aviv"⟩]

/-- One available 3-room unit in the first property. -/
def unitsT : List RUnit :=
  [⟨1, 3, "available", some ⟨"Sderot Yerushalayim", "HaRav 1"⟩⟩]

/-- A healthy environment: working store, working generator, configured
booking link. -/
def envT : Env :=
  { generate := oracleOkay, generateProperty := fun _ _ => .ok "PROPS"
    generateNoProps := fun _ => .ok "NOPROPS"
    properties := propsT, units := unitsT
    calendlyLink := "https://calendly.com/tour"
    now := 7, dbFail := false, mediaOk := true }

/-- The same environment with `CALENDLY_LINK` unset. -/
def envNoLink : Env := { envT with calendlyLink := "" }

/-- The same environment with a generator that answers `"NONE"`. -/
def envAiNone : Env := { envT with generate := fun _ => .ok "NONE" }

/-- An environment whose store and generator both fail. -/
def envFail : Env :=
  { envT with dbFail := true, generate := fun _ => .error () }

/-- A lead in stage `qualified` with a complete profile. -/
def leadQ : Lead := ⟨1, "+15550001", some "דנה", "qualified",
  some "Neve Sharet", some 3, 5⟩

/-- A fresh lead in `collecting_profile` with nothing collected yet. -/
def leadC6 : Lead := ⟨2, "+15550002", none, "collecting_profile",
  none, none, 5⟩

/-- A `collecting_profile` lead missing only the room count. -/
def leadW6 : Lead := ⟨4, "+15550004", some "דנה", "collecting_profile",
  some "Neve Sharet", none, 5⟩

/-- A `collecting_profile` lead with a complete profile. -/
def leadFull : Lead := ⟨3, "+15550003", some "דנה", "collecting_profile",
  some "Sderot Yerushalayim", some 3, 5⟩

/-- A lead in the alternate-flow stage `gate_failed`. -/
def leadGF : Lead := { leadQ with stage := "gate_failed" }

/-- A six-message history whose most recent user message is
`"מה המחיר"`, while the oldest-3 window's last user message is
`"שלום"`. -/
def log6 : List ConvMsg :=
  [⟨"user", "היי"⟩, ⟨"bot", "r1"⟩, ⟨"user", "שלום"⟩,
   ⟨"bot", "r2"⟩, ⟨"user", "מה המחיר"⟩, ⟨"bot", "r3"⟩]

/-- A short two-message history. -/
def logC5 : List ConvMsg := [⟨"user", "היי"⟩, ⟨"bot", "ok"⟩]

/-- A store with one appointment and three followups (two of them for the
appointment's lead, one pending). -/
def dbW : DB :=
  { leads := [⟨9, "+15550009", some "x", "tour_scheduled", none, some 3, 5⟩]
    appointments := [⟨21, 9, "EVT1", "scheduled"⟩]
    followups := [⟨31, 9, "pending"⟩, ⟨32, 9, "sent"⟩, ⟨33, 8, "pending"⟩] }

/-! ## Helper lemmas -/

/-- A string is an infix (in the sense of `pyIn`) of any string having it
as a middle segment. -/
theorem pyIn_append_middle (n a b : String) : pyIn n (a ++ n ++ b) = true := by
  unfold pyIn
  rw [decide_eq_true_iff]
  exact ⟨a.data, b.data, by simp⟩

/-- A string is an infix (in the sense of `pyIn`) of any string ending in
it. -/
theorem pyIn_append_end (n a : String) : pyIn n (a ++ n) = true := by
  unfold pyIn
  rw [decide_eq_true_iff]
  exact ⟨a.data, [], by simp⟩

/-! ## C7 — room-count extraction -/

/-- C7: room-count extraction maps spelled-out number words first (so
`"שלוש 5"` yields 3) and otherwise parses the first run of digits; `"3"`,
`"שלוש"` and `"3 חדרים"` all extract 3, `"15"` parses as 15 but is
rejected by the 1–10 range check and leaves the rooms field unset, and any
accepted value lies in 1–10. -/
theorem c7_room_extraction :
    extractRooms "3" = some 3 ∧ extractRooms "שלוש" = some 3 ∧
    extractRooms "3 חדרים" = some 3 ∧
    (extractNumber "15" = some 15 ∧ extractRooms "15" = none) ∧
    extractNumber "שלוש 5" = some 3 ∧
    ∀ msg r, extractRooms msg = some r → 1 ≤ r ∧ r ≤ 10 := by
  refine ⟨by decide, by decide, by decide, ⟨by decide, by decide⟩, by decide, ?_⟩
  intro msg r h
  unfold extractRooms at h
  cases hn : extractNumber msg with
  | none => rw [hn] at h; exact absurd h (by simp)
  | some k =>
    rw [hn] at h
    dsimp only at h
    by_cases hc : k ≠ 0 ∧ 1 ≤ k ∧ k ≤ 10
    · rw [if_pos hc] at h
      injection h with h
      subst h
      exact ⟨hc.2.1, hc.2.2⟩
    · rw [if_neg hc] at h
      exact absurd h (by simp)

/-- Witness for C7's universal conjunct at a concrete input. -/
theorem c7_room_extraction_witness :
    extractRooms "7 חדרים" = some 7 ∧ (1 ≤ 7 ∧ 7 ≤ 10) :=
  ⟨by decide, c7_room_extraction.2.2.2.2.2 "7 חדרים" 7 (by decide)⟩

/-! ## C1 — duplicate-message suppression -/

/-- C1 (code bug): the source fetches the conversation window with
`order('timestamp', desc=False).limit(3)`, i.e. the three OLDEST
messages, so with the six-message history `log6` the new inbound
`"מה המחיר"` — byte-identical to the most recent user message — is NOT
detected as a duplicate: the spec-worded trigger fires, yet processing
does not return the static acknowledgement and invokes the Text
Generator once.  On a history short enough that the oldest-3 window
contains the most recent user message, the skip behaves as specified
(static acknowledgement, no generator call, no lead mutation), showing
the window direction to be a slip rather than a design. -/
theorem c1_duplicate_window_code_bug :
    specDuplicateTrigger log6 "מה המחיר" = true ∧
    (processLeadMessage envT leadQ log6 "מה המחיר").reply ≠ staticAck ∧
    (processLeadMessage envT leadQ log6 "מה המחיר").gcalls = 1 ∧
    (processLeadMessage envT leadQ logC5 "היי").reply = staticAck ∧
    (processLeadMessage envT leadQ logC5 "היי").gcalls = 0 ∧
    (processLeadMessage envT leadQ logC5 "היי").lead = leadQ := by
  refine ⟨by decide, by decide, by decide, by decide, by decide, by decide⟩

/-! ## C9 — catch-all fallback -/

/-- C9: any failure inside per-message processing degrades to the fixed
fallback reply with no other effect, a successful run is returned as-is
(so every inbound message gets an answer), and a failing raw generator
call is absorbed inside `generate_response` as its fixed fallback text. -/
theorem c9_fallback :
    (∀ env lead log message, processInner env lead log message = .error () →
      processLeadMessage env lead log message =
        { reply := techFallback, lead := lead, log := log
          gcalls := 0, writes := 0, media := [] }) ∧
    (∀ env lead log message r, processInner env lead log message = .ok r →
      processLeadMessage env lead log message = r) ∧
    (∀ env c, env.generate c = .error () →
      generateResponse env c = geminiFallback) := by
  refine ⟨?_, ?_, ?_⟩
  · intro env lead log message h
    unfold processLeadMessage
    rw [h]
  · intro env lead log message r h
    unfold processLeadMessage
    rw [h]
  · intro env c h
    unfold generateResponse
    rw [h]

/-- Witness for C9 in an environment whose store and generator fail. -/
theorem c9_fallback_witness :
    (processLeadMessage envFail leadQ [] "היי").reply = techFallback ∧
    generateResponse envFail ⟨"new", none, [], "היי"⟩ = geminiFallback := by
  constructor
  · have h := c9_fallback.1 envFail leadQ [] "היי" rfl
    rw [h]
  · exact c9_fallback.2.2 envFail ⟨"new", none, [], "היי"⟩ rfl

/-! ## C10 — total stage dispatch -/

/-- C10: every stage string outside the five explicitly handled values is
routed to the collecting-profile handler, so dispatch is total over all
stage strings. -/
theorem c10_dispatch_total (env : Env) (lead : Lead) (hist : List ConvMsg)
    (message : String)
    (h : lead.stage ∉ (["new", "collecting_profile", "qualified",
      "scheduling_in_progress", "tour_scheduled"] : List String)) :
    processByStage env lead hist message =
      handleCollectingProfile env lead hist message := by
  simp only [List.mem_cons, List.not_mem_nil, or_false, not_or] at h
  obtain ⟨h1, h2, h3, h4, h5⟩ := h
  simp [processByStage, h1, h2, h3, h4, h5]

/-- Witness for C10 at the alternate-flow stage `gate_failed`. -/
theorem c10_dispatch_total_witness :
    leadGF.stage ∉ (["new", "collecting_profile", "qualified",
      "scheduling_in_progress", "tour_scheduled"] : List String) ∧
    processByStage envT leadGF [] "היי" =
      handleCollectingProfile envT leadGF [] "היי" :=
  ⟨by decide, c10_dispatch_total envT leadGF [] "היי" (by decide)⟩

/-! ## C2 — project matching order -/

/-- C2 counterexample: with known projects `["Sderot Yerushalayim",
"Neve Sharet"]` and the Hebrew message `"ירושלים"`, the direct
case-insensitive substring phase matches NOTHING (the Hebrew text is not a
substring of the Latin transliteration in either direction), so —
contrary to the claim — the matcher does consult the Text Generator. -/
theorem c2_counterexample :
    directPropertyMatch "ירושלים" (propertyNames propsT) = none ∧
    matchPropertyWithAi envAiNone "ירושלים" propsT = ⟨none, true⟩ :=
  ⟨by decide, by decide⟩

/-- C2 (amended): extraction first tries a case-insensitive substring
match in either direction and selects the first hit without invoking the
Text Generator; the generator is consulted exactly when no direct match
exists (for non-trivial candidate lists); and a message actually contained
in a known name, such as `"Yerushalayim"`, selects
`"Sderot Yerushalayim"` directly under every generator oracle. -/
theorem c2_match_order (env : Env) (msg : String) (props : List Property) :
    (∀ n, directPropertyMatch msg (propertyNames props) = some n →
      matchPropertyWithAi env msg props = ⟨some n, false⟩) ∧
    (directPropertyMatch msg (propertyNames props) = none → props ≠ [] →
      propertyNames props ≠ [] →
      (matchPropertyWithAi env msg props).aiInvoked = true) ∧
    matchPropertyWithAi env "Yerushalayim" propsT =
      ⟨some "Sderot Yerushalayim", false⟩ := by
  have key : ∀ (m : String) (ps : List Property) (n : String),
      directPropertyMatch m (propertyNames ps) = some n →
      matchPropertyWithAi env m ps = ⟨some n, false⟩ := by
    intro m ps n h
    have hps : ps.isEmpty = false := by
      cases ps with
      | nil => simp [propertyNames, directPropertyMatch] at h
      | cons a l => rfl
    have hns : (propertyNames ps).isEmpty = false := by
      cases hpn : propertyNames ps with
      | nil => rw [hpn] at h; simp [directPropertyMatch] at h
      | cons a l => rfl
    simp [matchPropertyWithAi, hps, hns, h]
  refine ⟨fun n h => key msg props n h, ?_,
    key "Yerushalayim" propsT "Sderot Yerushalayim" (by decide)⟩
  intro h hps0 hns0
  have hps : props.isEmpty = false := by
    cases props with
    | nil => exact absurd rfl hps0
    | cons a l => rfl
  have hns : (propertyNames props).isEmpty = false := by
    cases hpn : propertyNames props with
    | nil => exact absurd hpn hns0
    | cons a l => rfl
  unfold matchPropertyWithAi
  simp only [hps, hns, Bool.false_eq_true, if_false, h]
  cases hg : env.generate (aiMatchCall msg (propertyNames props)) with
  | error e => rfl
  | ok resp =>
    dsimp only
    split
    · rfl
    · split <;> rfl

/-- Witness for C2's direct-match conjunct at a concrete input. -/
theorem c2_match_order_witness :
    directPropertyMatch "sharet" (propertyNames propsT) = some "Neve Sharet" ∧
    matchPropertyWithAi envAiNone "sharet" propsT =
      ⟨some "Neve Sharet", false⟩ :=
  ⟨by decide,
    (c2_match_order envAiNone "sharet" propsT).1 "Neve Sharet" (by decide)⟩

/-! ## C3 — qualified lead, scheduling intent -/

/-- Dispatch for a lead whose stage is `qualified`. -/
theorem processByStage_qualified (env : Env) (lead : Lead)
    (hist : List ConvMsg) (message : String)
    (h : lead.stage = "qualified") :
    processByStage env lead hist message =
      handleQualified env lead hist message := by
  unfold processByStage
  rw [h]
  simp

/-- Unfolding of `process_lead_message` when the store works and the
duplicate check does not fire. -/
theorem processLeadMessage_run (env : Env) (lead : Lead)
    (log : List ConvMsg) (message : String)
    (hdb : env.dbFail = false)
    (hdup : duplicateHit (getConversationHistory log 3) message = false) :
    (processLeadMessage env lead log message).lead =
      (processByStage env lead
        (getConversationHistory (log ++ [⟨"user", message⟩]) 10) message).lead ∧
    (processLeadMessage env lead log message).reply =
      (processByStage env lead
        (getConversationHistory (log ++ [⟨"user", message⟩]) 10) message).reply ∧
    (processLeadMessage env lead log message).writes =
      (processByStage env lead
        (getConversationHistory (log ++ [⟨"user", message⟩]) 10) message).writes := by
  unfold processLeadMessage processInner processPure
  simp only [hdb, hdup, Bool.false_eq_true, if_false]
  exact ⟨trivial, trivial, trivial⟩

/-- C3 counterexample: with `CALENDLY_LINK` unset, a qualified lead's
scheduling request ("כן") neither moves the lead to
`scheduling_in_progress` nor returns a booking link — the reply is the
manual-scheduling fallback. -/
theorem c3_counterexample :
    isSchedulingRequest "כן" = true ∧
    envNoLink.calendlyLink = "" ∧
    (processLeadMessage envNoLink leadQ [] "כן").lead.stage = "qualified" ∧
    (processLeadMessage envNoLink leadQ [] "כן").reply =
      "אתאם איתך ידנית. איזה יום ושעה נוחים לך?" :=
  ⟨by decide, by decide, by decide, by decide⟩

/-- C3 (amended): provided the external booking link is configured
(non-empty `CALENDLY_LINK`), a qualified lead's message with scheduling
intent or guarantee/payslip keywords moves the lead to
`scheduling_in_progress`, and the reply — the generated guarantee
explanation plus the link — contains the booking link. -/
theorem c3_scheduling_transition (env : Env) (lead : Lead)
    (log : List ConvMsg) (message : String)
    (hstage : lead.stage = "qualified")
    (hdb : env.dbFail = false)
    (hdup : duplicateHit (getConversationHistory log 3) message = false)
    (hlink : env.calendlyLink ≠ "")
    (htrig : isSchedulingRequest message = true ∨ guaranteeHit message = true) :
    (processLeadMessage env lead log message).lead.stage =
      "scheduling_in_progress" ∧
    pyIn env.calendlyLink (processLeadMessage env lead log message).reply =
      true := by
  obtain ⟨hl, hr, -⟩ := processLeadMessage_run env lead log message hdb hdup
  rw [hl, hr, processByStage_qualified env lead _ message hstage]
  unfold handleQualified
  cases hs : isSchedulingRequest message with
  | true =>
    simp only [if_true]
    unfold startScheduling
    rw [if_pos hlink]
    exact ⟨rfl, pyIn_append_middle _ _ _⟩
  | false =>
    have hg : guaranteeHit message = true := by
      rcases htrig with ht | ht
      · rw [hs] at ht; exact absurd ht (by simp)
      · exact ht
    simp only [hs, hg, Bool.false_eq_true, if_false, if_true]
    unfold explainGuaranteesAndSchedule
    rw [if_pos hlink]
    exact ⟨rfl, pyIn_append_end _ _⟩

/-- Witness for C3 with a configured link and the message "כן". -/
theorem c3_scheduling_transition_witness :
    leadQ.stage = "qualified" ∧
    (processLeadMessage envT leadQ [] "כן").lead.stage =
      "scheduling_in_progress" ∧
    pyIn envT.calendlyLink (processLeadMessage envT leadQ [] "כן").reply =
      true := by
  have h := c3_scheduling_transition envT leadQ [] "כן" rfl rfl (by decide)
    (by decide) (Or.inl (by decide))
  exact ⟨rfl, h.1, h.2⟩

/-! ## C5 — lead mutation per message -/

/-- The post-extraction lead is either untouched or freshly stamped. -/
theorem postExtractLead_inv (env : Env) (message : String) (lead : Lead) :
    postExtractLead env message lead = lead ∨
    (postExtractLead env message lead).last_interaction = env.now := by
  unfold postExtractLead
  dsimp only
  split
  · exact Or.inl rfl
  · exact Or.inr rfl

/-- Both outcomes of the property search write the lead with a fresh
`last_interaction`. -/
theorem searchAndShow_last (env : Env) (lead : Lead) :
    (searchAndShow env lead).lead.last_interaction = env.now := by
  unfold searchAndShow
  dsimp only
  split <;> rfl

/-- The collecting-profile handler leaves the lead untouched or stamps it. -/
theorem handleCollectingProfile_lead_inv (env : Env) (lead : Lead)
    (hist : List ConvMsg) (message : String) :
    (handleCollectingProfile env lead hist message).lead = lead ∨
    (handleCollectingProfile env lead hist message).lead.last_interaction =
      env.now := by
  unfold handleCollectingProfile
  dsimp only
  split
  · exact Or.inl rfl
  · split
    · exact Or.inr (searchAndShow_last env _)
    · split
      · exact postExtractLead_inv env message lead
      · split
        · exact postExtractLead_inv env message lead
        · split
          · exact postExtractLead_inv env message lead
          · exact postExtractLead_inv env message lead

/-- The qualified handler leaves the lead untouched or stamps it. -/
theorem handleQualified_lead_inv (env : Env) (lead : Lead)
    (hist : List ConvMsg) (message : String) :
    (handleQualified env lead hist message).lead = lead ∨
    (handleQualified env lead hist message).lead.last_interaction =
      env.now := by
  unfold handleQualified startScheduling explainGuaranteesAndSchedule
  split
  · split
    · exact Or.inr rfl
    · exact Or.inl rfl
  · split
    · split
      · exact Or.inr rfl
      · exact Or.inl rfl
    · exact Or.inl rfl

/-- The scheduling handler leaves the lead untouched or stamps it. -/
theorem handleScheduling_lead_inv (env : Env) (lead : Lead)
    (hist : List ConvMsg) (message : String) :
    (handleScheduling env lead hist message).lead = lead ∨
    (handleScheduling env lead hist message).lead.last_interaction =
      env.now := by
  unfold handleScheduling
  split
  · exact Or.inr rfl
  · exact Or.inl rfl

/-- Every stage handler leaves the lead untouched or stamps it. -/
theorem processByStage_lead_inv (env : Env) (lead : Lead)
    (hist : List ConvMsg) (message : String) :
    (processByStage env lead hist message).lead = lead ∨
    (processByStage env lead hist message).lead.last_interaction =
      env.now := by
  unfold processByStage
  split
  · exact Or.inr rfl
  · split
    · exact handleCollectingProfile_lead_inv env lead hist message
    · split
      · exact handleQualified_lead_inv env lead hist message
      · split
        · exact handleScheduling_lead_inv env lead hist message
        · split
          · exact Or.inl rfl
          · exact handleCollectingProfile_lead_inv env lead hist message

/-- C5 counterexample: a qualified lead's message with neither scheduling
intent nor guarantee keywords is fully processed (it is not a duplicate)
yet performs no `update_lead` call at all — the lead record, including its
`last_interaction`, is unchanged. -/
theorem c5_counterexample :
    leadQ.stage = "qualified" ∧
    (processLeadMessage envT leadQ logC5 "מה המחיר?").lead = leadQ ∧
    (processLeadMessage envT leadQ logC5 "מה המחיר?").writes = 0 ∧
    leadQ.last_interaction ≠ envT.now :=
  ⟨by decide, by decide, by decide, by decide⟩

/-- C5 (amended): processing does not mutate the Lead on every message;
rather, the Lead is either left completely unchanged or written with its
`last_interaction` refreshed to the current time (every `update_lead`
call stamps it). -/
theorem c5_last_interaction (env : Env) (lead : Lead) (log : List ConvMsg)
    (message : String) :
    (processLeadMessage env lead log message).lead = lead ∨
    (processLeadMessage env lead log message).lead.last_interaction =
      env.now := by
  unfold processLeadMessage processInner processPure
  cases hdb : env.dbFail with
  | true =>
    simp only [hdb, if_true]
    exact Or.inl trivial
  | false =>
    simp only [hdb, Bool.false_eq_true, if_false]
    split
    · exact Or.inl rfl
    · exact processByStage_lead_inv env lead _ message

/-! ## C4 — property search outcome -/

/-- C4: for a complete profile, an empty search result regresses the lead
to `collecting_profile`; a non-empty result advances it to `qualified`
with the generated property reply and a media side-action covering at most
3 units; every searched unit is available with exactly the requested room
count; and the media send is best-effort — its success or failure changes
neither the reply nor the lead. -/
theorem c4_search_outcome (env : Env) (lead : Lead)
    (hfull : getMissingProfileFields lead = []) :
    (searchUnits env lead = [] →
      (searchAndShow env lead).lead.stage = "collecting_profile") ∧
    (searchUnits env lead ≠ [] →
      (searchAndShow env lead).lead.stage = "qualified" ∧
      (searchAndShow env lead).reply =
        generatePropertyMessage env lead (searchUnits env lead) ∧
      (searchAndShow env lead).media.length ≤ 3) ∧
    (∀ k, lead.rooms = some k → ∀ u ∈ searchUnits env lead,
      u.rooms = k ∧ u.status = "available") ∧
    (∀ b : Bool,
      (searchAndShow { env with mediaOk := b } lead).reply =
        (searchAndShow env lead).reply ∧
      (searchAndShow { env with mediaOk := b } lead).lead =
        (searchAndShow env lead).lead) := by
  have hro : optNatFalsy lead.rooms = false := by
    cases h' : optNatFalsy lead.rooms
    · rfl
    · simp [getMissingProfileFields, h'] at hfull
  refine ⟨?_, ?_, ?_, ?_⟩
  · intro he
    unfold searchAndShow
    dsimp only
    rw [he]
    rfl
  · intro hne
    have hie : (searchUnits env lead).isEmpty = false := by
      cases hu : searchUnits env lead with
      | nil => exact absurd hu hne
      | cons a t => rfl
    unfold searchAndShow
    dsimp only
    rw [hie]
    simp only [Bool.false_eq_true, if_false]
    refine ⟨by trivial, by trivial, ?_⟩
    cases env.mediaOk
    · simp
    · simp
  · intro k hk u hu
    have hu0 : u ∈ getAvailableUnits env.units lead.rooms lead.rooms := by
      unfold searchUnits at hu
      dsimp only at hu
      rw [hro] at hu
      simp only [Bool.false_eq_true, if_false] at hu
      split at hu
      · exact hu
      · exact (List.mem_filter.mp hu).1
    rw [hk] at hu0
    unfold getAvailableUnits at hu0
    obtain ⟨-, hcond⟩ := List.mem_filter.mp hu0
    simp only [Bool.and_eq_true, decide_eq_true_eq] at hcond
    obtain ⟨⟨hst, hge⟩, hle⟩ := hcond
    exact ⟨Nat.le_antisymm hle hge, hst⟩
  · intro b
    have h1 : searchUnits { env with mediaOk := b } lead =
        searchUnits env lead := rfl
    constructor
    · cases hie : (searchUnits env lead).isEmpty
      · unfold searchAndShow
        dsimp only
        rw [h1, hie]
        rfl
      · unfold searchAndShow
        dsimp only
        rw [h1, hie]
        rfl
    · cases hie : (searchUnits env lead).isEmpty
      · unfold searchAndShow
        dsimp only
        rw [h1, hie]
        rfl
      · unfold searchAndShow
        dsimp only
        rw [h1, hie]
        rfl

/-- Witness for C4 on the fixture store, where the search succeeds. -/
theorem c4_search_outcome_witness :
    getMissingProfileFields leadFull = [] ∧
    searchUnits envT leadFull ≠ [] ∧
    (searchAndShow envT leadFull).lead.stage = "qualified" := by
  have h := c4_search_outcome envT leadFull (by decide)
  exact ⟨by decide, by decide, (h.2.1 (by decide)).1⟩

/-! ## C6 — asking for the next missing field -/

/-- C6 counterexample: a `collecting_profile` lead with every field
missing, sent an empty message, gets the fixed clarification reply — not a
question for any missing field — so the claim does not hold for every
message. -/
theorem c6_counterexample :
    getMissingProfileFields leadC6 ≠ [] ∧
    (processLeadMessage envT leadC6 [] "").reply =
      "אני לא הבנתי. תוכל לחזור על זה?" ∧
    (processLeadMessage envT leadC6 [] "").reply ≠ questionFor envT "name" ∧
    (processLeadMessage envT leadC6 [] "").reply ≠ questionFor envT "project" ∧
    (processLeadMessage envT leadC6 [] "").reply ≠ questionFor envT "rooms" :=
  ⟨by decide, by decide, by decide, by decide, by decide⟩

/-- C6 (amended): for a non-empty trimmed message, when at least one of
{name, project, rooms} is still missing after applying the message's
extracted fields, the collecting-profile handler asks exactly one
question — the one for the FIRST missing field in the fixed order name,
project, rooms — and a field that is set is never in the missing list,
hence never asked. -/
theorem c6_ask_first_missing (env : Env) (lead : Lead) (hist : List ConvMsg)
    (message : String)
    (hmsg : pyStrip message ≠ "")
    (hmiss : getMissingProfileFields (postExtractLead env message lead) ≠ []) :
    (handleCollectingProfile env lead hist message).reply =
      questionFor env
        ((getMissingProfileFields (postExtractLead env message lead)).headD "") ∧
    ((getMissingProfileFields (postExtractLead env message lead)).headD "") ∈
      getMissingProfileFields (postExtractLead env message lead) ∧
    (nameMissing (postExtractLead env message lead) = false →
      "name" ∉ getMissingProfileFields (postExtractLead env message lead)) ∧
    (optStrFalsy (postExtractLead env message lead).preferred_area = false →
      "project" ∉ getMissingProfileFields (postExtractLead env message lead)) ∧
    (optNatFalsy (postExtractLead env message lead).rooms = false →
      "rooms" ∉ getMissingProfileFields (postExtractLead env message lead)) := by
  have hlen : ¬((pyStrip message).data.length < 1) := by
    intro hl
    apply hmsg
    have hd : (pyStrip message).data = [] :=
      List.eq_nil_of_length_eq_zero (Nat.lt_one_iff.mp hl)
    exact String.ext hd
  have hlen0 : ¬((pyStrip message).length = 0) := by
    intro h0
    exact hlen (Nat.lt_one_iff.mpr h0)
  cases hN : nameMissing (postExtractLead env message lead) <;>
    cases hA : optStrFalsy (postExtractLead env message lead).preferred_area <;>
      cases hR : optNatFalsy (postExtractLead env message lead).rooms <;>
        first
        | (exfalso
           revert hmiss
           simp [getMissingProfileFields, hN, hA, hR]
           done)
        | (refine ⟨?_, ?_, ?_, ?_, ?_⟩ <;>
            simp [handleCollectingProfile, getMissingProfileFields,
              questionFor, hN, hA, hR, hlen, hlen0])

/-- Witness for C6: a lead missing only the room count, sent small talk
that extracts nothing, is asked the rooms question. -/
theorem c6_ask_first_missing_witness :
    pyStrip "שלום טוב מאוד" ≠ "" ∧
    (handleCollectingProfile envT leadW6 [] "שלום טוב מאוד").reply =
      questionFor envT "rooms" := by
  refine ⟨by decide, ?_⟩
  have h := (c6_ask_first_missing envT leadW6 [] "שלום טוב מאוד"
    (by decide) (by decide)).1
  exact h.trans (congrArg (questionFor envT) (by decide))

/-! ## C8 — appointment cancellation -/

/-- C8: for a resolvable cancellation event, the handler acknowledges with
"OK", sets the resolved appointment's status to `canceled`, regresses the
owning lead to `qualified`, and leaves none of that lead's followups
`pending` (every pending one becomes `canceled`, sent/canceled ones keep
their status). -/
theorem c8_cancellation (db : DB) (now : Nat) (uri : String)
    (appt : Appointment)
    (hne : lastUriSegment uri ≠ "")
    (hres : getAppointmentByCalendlyId db (lastUriSegment uri) = some appt) :
    (handleAppointmentCanceled db now uri).1 = "OK" ∧
    (∀ a ∈ (handleAppointmentCanceled db now uri).2.appointments,
      a.id = appt.id → a.status = "canceled") ∧
    (∀ l ∈ (handleAppointmentCanceled db now uri).2.leads,
      l.id = appt.lead_id → l.stage = "qualified") ∧
    (∀ f ∈ (handleAppointmentCanceled db now uri).2.followups,
      f.lead_id = appt.lead_id → f.status ≠ "pending") ∧
    (∀ f ∈ db.followups, f.lead_id = appt.lead_id → f.status = "pending" →
      (⟨f.id, f.lead_id, "canceled"⟩ : Followup) ∈
        (handleAppointmentCanceled db now uri).2.followups) := by
  have hrun : handleAppointmentCanceled db now uri =
      ("OK", cancelPendingFollowups
        (dbUpdateLead (updateAppointmentStatus db appt.id "canceled")
          appt.lead_id now { stage := some "qualified" }) appt.lead_id) := by
    unfold handleAppointmentCanceled
    rw [if_neg hne, hres]
  rw [hrun]
  refine ⟨rfl, ?_, ?_, ?_, ?_⟩
  · intro a ha hid
    simp only [cancelPendingFollowups, dbUpdateLead, updateAppointmentStatus,
      List.mem_map] at ha
    obtain ⟨b, -, hb⟩ := ha
    by_cases hbid : b.id = appt.id
    · rw [if_pos hbid] at hb
      rw [← hb]
    · rw [if_neg hbid] at hb
      rw [← hb] at hid
      exact absurd hid hbid
  · intro l hl hid
    simp only [cancelPendingFollowups, dbUpdateLead, updateAppointmentStatus,
      List.mem_map] at hl
    obtain ⟨b, -, hb⟩ := hl
    by_cases hbid : b.id = appt.lead_id
    · rw [if_pos hbid] at hb
      rw [← hb]
      rfl
    · rw [if_neg hbid] at hb
      rw [← hb] at hid
      exact absurd hid hbid
  · intro f hf hid
    simp only [cancelPendingFollowups, dbUpdateLead, updateAppointmentStatus,
      List.mem_map] at hf
    obtain ⟨b, -, hb⟩ := hf
    by_cases hbp : b.lead_id = appt.lead_id ∧ b.status = "pending"
    · rw [if_pos (by simp [hbp.1, hbp.2])] at hb
      rw [← hb]
      simp
    · have hcond :
          ¬((b.lead_id = appt.lead_id && decide (b.status = "pending")) = true) := by
        simp only [Bool.and_eq_true, decide_eq_true_eq]
        exact fun hc => hbp ⟨hc.1, hc.2⟩
      rw [if_neg hcond] at hb
      rw [← hb] at hid ⊢
      intro hst
      exact hbp ⟨hid, hst⟩
  · intro f hf hl hp
    simp only [cancelPendingFollowups, dbUpdateLead, updateAppointmentStatus,
      List.mem_map]
    refine ⟨f, hf, ?_⟩
    rw [if_pos (by simp [hl, hp])]

/-- Witness for C8 on a concrete store with one pending followup for the
canceled appointment's lead. -/
theorem c8_cancellation_witness :
    lastUriSegment "https://api.calendly.com/scheduled_events/EVT1" ≠ "" ∧
    ((handleAppointmentCanceled dbW 7
        "https://api.calendly.com/scheduled_events/EVT1").1 = "OK" ∧
      ∀ f ∈ (handleAppointmentCanceled dbW 7
        "https://api.calendly.com/scheduled_events/EVT1").2.followups,
        f.lead_id = 9 → f.status ≠ "pending") := by
  have h := c8_cancellation dbW 7
    "https://api.calendly.com/scheduled_events/EVT1"
    ⟨21, 9, "EVT1", "scheduled"⟩ (by decide) (by decide)
  exact ⟨by decide, h.1, h.2.2.2.1⟩

end RentBot
